import Mathlib

/-!
# Open3D dense linear-algebra dispatch: `Solve` and `InverseCPU`

A shallow embedding of `cpp/open3d/core/op/linalg/Solve.cpp` and
`cpp/open3d/core/op/linalg/InverseCPU.cpp`.

* C++ statements that read or write memory become functions on an explicit
  machine state (`Machine`): the heap of buffers, the log of observable calls
  (allocations, copies, kernel invocations) and the tensor variable bound to the
  reference parameter `X` of `Solve`. The operands `A` and `B` are `const`
  references and are passed as values; `X` is a variable of its own.
* `utility::LogError` aborts the call; a call therefore yields
  `Except Error α` together with the machine state at the point of failure. The
  source gives every error a message only; each call site carries in addition the
  kind that section 7 of the specification assigns to its trigger.
* The numerical kernels (`SolveCPU`, `SolveCUDA`, the LAPACKE routines) are
  external; they are parameters of the model and transform only the contents of
  the buffers whose pointers they receive.
* `#ifdef BUILD_CUDA_MODULE` becomes a boolean parameter.
* `int n = A_shape[0]` narrows a 64-bit extent to a 32-bit `int`; the narrowing is
  modelled by `toInt32`.
* Allocation always succeeds, and the release of the temporaries when the call
  ends is not modelled: the heap only grows.
-/

namespace open3d
namespace core

/-! ## Tags -/

/-- Modelled from the spec: the dtype enumeration (declared in `Dtype.h`). The
sources name `Float32`, `Float64` and `Int32`; `Other` stands for every further
tag of the enumeration. -/
inductive Dtype where
  | Float32
  | Float64
  | Int32
  | Other (tag : Nat)
  deriving DecidableEq, Repr

/-- Modelled from the spec: the device kinds, host and accelerator (declared in
`Device.h`). -/
inductive DeviceType where
  | CPU
  | CUDA
  deriving DecidableEq, Repr

/-- Modelled from the spec: a device tag, a device kind together with the index of
the device of that kind (declared in `Device.h`). -/
structure Device where
  device_type : DeviceType
  device_id : Int
  deriving DecidableEq, Repr

/-- The accessor `Device::GetType`. -/
def Device.GetType (d : Device) : DeviceType := d.device_type

/-! ## Errors -/

/-- Modelled from the spec: the error taxonomy of section 7, one kind per
trigger. -/
inductive ErrorKind where
  | DeviceMismatch
  | UnsupportedDtype
  | ShapeError
  | DimensionMismatch
  | UnsupportedDevice
  deriving DecidableEq, Repr

/-- An error raised by `utility::LogError`: its kind in the taxonomy and the
format string of the message. -/
structure Error where
  kind : ErrorKind
  message : String
  deriving DecidableEq, Repr

/-! ## Memory -/

/-- The payload of one buffer element (the bit pattern of a float or an
integer). -/
abbrev Scalar := Int

/-- A buffer: the device it resides on and its elements. -/
structure Blob where
  device : Device
  data : List Scalar
  deriving DecidableEq, Repr

/-- A raw data pointer (`void*`): a buffer and an element offset into it. -/
structure Ptr where
  blob : Nat
  offset : Nat
  deriving DecidableEq, Repr

/-- The heap: the buffers allocated so far, in allocation order. -/
abbrev Heap := List Blob

/-- The elements a raw pointer points at. -/
def load (heap : Heap) (p : Ptr) : List Scalar :=
  match heap[p.blob]? with
  | some b => b.data.drop p.offset
  | none => []

/-- Overwrite the elements a raw pointer points at. -/
def store (heap : Heap) (p : Ptr) (data : List Scalar) : Heap :=
  match heap[p.blob]? with
  | some b => heap.set p.blob { b with data := b.data.take p.offset ++ data }
  | none => heap

/-- Overwrite through a pointer that may be `nullptr`. -/
def storeOpt (heap : Heap) (p : Option Ptr) (data : List Scalar) : Heap :=
  match p with
  | some q => store heap q data
  | none => heap

/-! ## Tensors -/

/-- Modelled from the spec: the tensor capability (declared in `Tensor.h`): a
numeric buffer with shape, dtype tag and device tag. A tensor is a strided view
into a buffer of the heap, in the row-major convention. -/
structure Tensor where
  shape : List Int
  strides : List Int
  dtype : Dtype
  device : Device
  blob : Nat
  offset : Nat
  deriving DecidableEq, Repr

namespace Tensor

/-- The accessor `Tensor::GetDevice`. -/
def GetDevice (t : Tensor) : Device := t.device

/-- The accessor `Tensor::GetDtype`. -/
def GetDtype (t : Tensor) : Dtype := t.dtype

/-- The accessor `Tensor::GetShape`. -/
def GetShape (t : Tensor) : List Int := t.shape

/-- The accessor `Tensor::GetDataPtr`. -/
def GetDataPtr (t : Tensor) : Ptr := ⟨t.blob, t.offset⟩

/-- Modelled from the spec: the transposed view `Tensor::T` (defined in
`Tensor.cpp`). It shares the buffer of its operand; extents and strides are
reversed, which is the identity on tensors of rank at most one. -/
def T (t : Tensor) : Tensor :=
  { t with shape := t.shape.reverse, strides := t.strides.reverse }

end Tensor

/-- The number of elements of a shape. -/
def numElements (shape : List Int) : Nat :=
  (shape.map Int.toNat).prod

/-- The strides of a contiguous row-major tensor of the given shape. -/
def defaultStrides : List Int → List Int
  | [] => []
  | _ :: ds => (numElements ds : Int) :: defaultStrides ds

/-- The position, relative to the data pointer, of the element at a
multi-index. -/
def flatIndex : List Int → List Int → Int
  | s :: ss, i :: is => i * s + flatIndex ss is
  | _, _ => 0

/-- The multi-index of the `k`-th element in row-major order. -/
def unravel (shape : List Int) (k : Int) : List Int :=
  List.zipWith (fun s d => (k / s) % d) (defaultStrides shape) shape

/-- The element of a tensor at a multi-index, read from the heap. -/
def Tensor.elem (heap : Heap) (t : Tensor) (idx : List Int) : Option Scalar :=
  match heap[t.blob]? with
  | some b =>
      let k := (t.offset : Int) + flatIndex t.strides idx
      if 0 ≤ k then b.data[k.toNat]? else none
  | none => none

/-! ## Kernels -/

/-- What a solve adapter leaves behind: the new contents of the buffers it was
handed and, when it raised an error, that error. -/
structure KernelOut where
  A_data : List Scalar
  B_data : List Scalar
  ipiv_data : List Scalar
  X_data : List Scalar
  failure : Option Error

/-- Modelled from the spec: a solve adapter (`SolveCPU` in `SolveCPU.cpp`,
`SolveCUDA` in `SolveCUDA.cpp`), the backend kernel capability. It receives the
contents of the matrix buffer, of the right-hand side, of the pivot vector and of
the output buffer (absent for `nullptr`), then `n`, `m`, dtype and device. -/
abbrev SolveKernel :=
  List Scalar → List Scalar → List Scalar → Option (List Scalar) →
    Int → Int → Dtype → Device → KernelOut

/-- The two solve adapters. -/
structure Backends where
  SolveCPU : SolveKernel
  SolveCUDA : SolveKernel

/-- The arguments of a call of a solve adapter. -/
structure SolveArgs where
  A_data : Ptr
  B_data : Ptr
  ipiv_data : Ptr
  X_data : Option Ptr
  n : Int
  m : Int
  dtype : Dtype
  device : Device
  deriving DecidableEq, Repr

/-- The storage order argument of LAPACKE. -/
inductive MatrixLayout where
  | LAPACK_ROW_MAJOR
  | LAPACK_COL_MAJOR
  deriving DecidableEq, Repr

/-- The result of a factorization routine: status, factors, pivots. -/
structure GetrfOut where
  info : Int
  a : List Scalar
  ipiv : List Scalar

/-- The result of an inversion routine: status and inverse. -/
structure GetriOut where
  info : Int
  a : List Scalar

/-- Modelled from the spec: the host kernels of `lapacke.h`,
`getrf(matrix_layout, m, n, a, lda, ipiv)` (factorize in place) and
`getri(matrix_layout, n, a, lda, ipiv)` (invert from factors), in single and in
double precision. Each returns its status `info`, zero for success. -/
structure Lapacke where
  sgetrf : MatrixLayout → Int → Int → List Scalar → Int → List Scalar → GetrfOut
  sgetri : MatrixLayout → Int → List Scalar → Int → List Scalar → GetriOut
  dgetrf : MatrixLayout → Int → Int → List Scalar → Int → List Scalar → GetrfOut
  dgetri : MatrixLayout → Int → List Scalar → Int → List Scalar → GetriOut

/-! ## Machine state -/

/-- The observable calls. -/
inductive Event where
  | Empty (shape : List Int) (dtype : Dtype) (device : Device) (blob : Nat)
  | Copy (src : Tensor) (device : Device) (blob : Nat)
  | SolveCPU (args : SolveArgs) (A_in B_in : List Scalar)
  | SolveCUDA (args : SolveArgs) (A_in B_in : List Scalar)
  | LAPACKE_sgetrf (layout : MatrixLayout) (m n : Int) (a : Ptr) (lda : Int)
      (ipiv : Ptr) (info : Int)
  | LAPACKE_sgetri (layout : MatrixLayout) (n : Int) (a : Ptr) (lda : Int)
      (ipiv : Ptr) (info : Int)
  | LAPACKE_dgetrf (layout : MatrixLayout) (m n : Int) (a : Ptr) (lda : Int)
      (ipiv : Ptr) (info : Int)
  | LAPACKE_dgetri (layout : MatrixLayout) (n : Int) (a : Ptr) (lda : Int)
      (ipiv : Ptr) (info : Int)
  deriving DecidableEq, Repr

/-- The machine state: the heap, the log of observable calls, and the tensor
variable of the caller that the reference parameter `X` of `Solve` is bound to. -/
structure Machine where
  heap : Heap
  trace : List Event
  X : Tensor
  deriving DecidableEq, Repr

/-- A computation that may abort with an error; the machine state is kept on
both exits. -/
def Exec (α : Type) : Type := Machine → Except Error α × Machine

/-- Sequencing: an error ends the computation. -/
def Exec.bind {α β : Type} (x : Exec α) (f : α → Exec β) : Exec β :=
  fun s =>
    match x s with
    | (Except.ok a, s1) => f a s1
    | (Except.error e, s1) => (Except.error e, s1)

/-- Normal completion. -/
def Exec.pure {α : Type} (a : α) : Exec α := fun s => (Except.ok a, s)

instance : Monad Exec where
  pure := Exec.pure
  bind := Exec.bind

/-- Modelled from the spec: the error-reporting capability `utility::LogError`
(declared in `Console.h`): `fail(kind, message)` aborts the current call and
surfaces the error to the caller. -/
def LogError {α : Type} (kind : ErrorKind) (message : String) : Exec α :=
  fun s => (Except.error ⟨kind, message⟩, s)

/-- Modelled from the spec: `Tensor::Empty(shape, dtype, device)` (defined in
`Tensor.cpp`), a fresh contiguous tensor of unspecified contents, here zeros. A
shape with a negative extent holds no element. -/
def Tensor.Empty (shape : List Int) (dtype : Dtype) (device : Device) : Exec Tensor :=
  fun s =>
    let blob := s.heap.length
    (Except.ok ⟨shape, defaultStrides shape, dtype, device, blob, 0⟩,
      { s with
        heap := s.heap ++ [⟨device, List.replicate (numElements shape) 0⟩]
        trace := s.trace ++ [Event.Empty shape dtype device blob] })

/-- The elements of a tensor in row-major order. -/
def Tensor.contents (heap : Heap) (t : Tensor) : List Scalar :=
  (List.range (numElements t.shape)).map
    (fun (k : Nat) => (t.elem heap (unravel t.shape (Int.ofNat k))).getD 0)

/-- Modelled from the spec: `Tensor::Copy(device)` (defined in `Tensor.cpp`), a
fresh contiguous tensor on `device` holding the elements of the operand. -/
def Tensor.Copy (t : Tensor) (device : Device) : Exec Tensor :=
  fun s =>
    let blob := s.heap.length
    (Except.ok ⟨t.shape, defaultStrides t.shape, t.dtype, device, blob, 0⟩,
      { s with
        heap := s.heap ++ [⟨device, t.contents s.heap⟩]
        trace := s.trace ++ [Event.Copy t device blob] })

/-- Assignment to the reference parameter `X`. -/
def assignX (t : Tensor) : Exec Unit :=
  fun s => (Except.ok (), { s with X := t })

/-- The current value of the reference parameter `X`. -/
def readX : Exec Tensor :=
  fun s => (Except.ok s.X, s)

/-- The heap after a solve adapter has run on the buffers it was handed. -/
def writeBack (heap : Heap) (args : SolveArgs) (out : KernelOut) : Heap :=
  storeOpt
    (store (store (store heap args.A_data out.A_data) args.B_data out.B_data)
      args.ipiv_data out.ipiv_data)
    args.X_data out.X_data

/-- A call of a solve adapter: the adapter runs on the contents behind the
pointers, its results are written back, and an error it raised propagates. -/
def callSolveKernel (k : SolveKernel) (event : SolveArgs → List Scalar → List Scalar → Event)
    (args : SolveArgs) : Exec Unit :=
  fun s =>
    let A_in := load s.heap args.A_data
    let B_in := load s.heap args.B_data
    let out := k A_in B_in (load s.heap args.ipiv_data)
      (args.X_data.map (load s.heap)) args.n args.m args.dtype args.device
    let s1 : Machine :=
      { s with
        heap := writeBack s.heap args out
        trace := s.trace ++ [event args A_in B_in] }
    match out.failure with
    | none => (Except.ok (), s1)
    | some e => (Except.error e, s1)

/-- The call `SolveCPU(A_data, B_data, ipiv_data, X_data, n, m, dtype, device)`. -/
def SolveCPU (K : Backends) (A_data B_data ipiv_data : Ptr) (X_data : Option Ptr)
    (n m : Int) (dtype : Dtype) (device : Device) : Exec Unit :=
  callSolveKernel K.SolveCPU Event.SolveCPU
    ⟨A_data, B_data, ipiv_data, X_data, n, m, dtype, device⟩

/-- The call `SolveCUDA(A_data, B_data, ipiv_data, X_data, n, m, dtype, device)`. -/
def SolveCUDA (K : Backends) (A_data B_data ipiv_data : Ptr) (X_data : Option Ptr)
    (n m : Int) (dtype : Dtype) (device : Device) : Exec Unit :=
  callSolveKernel K.SolveCUDA Event.SolveCUDA
    ⟨A_data, B_data, ipiv_data, X_data, n, m, dtype, device⟩

/-- Conversion of a 64-bit extent to a 32-bit `int` (two's complement
wrap-around). -/
def toInt32 (x : Int) : Int := (x + 2 ^ 31) % 2 ^ 32 - 2 ^ 31

/-! ## `Solve` -/

/-- The function `Solve(const Tensor &A, const Tensor &B, Tensor &X)` of `Solve.cpp`. -/
def Solve (BUILD_CUDA_MODULE : Bool) (K : Backends) (A B : Tensor) : Exec Unit := do
  -- Check devices
  let device := A.GetDevice
  if device ≠ B.GetDevice then
    LogError ErrorKind.DeviceMismatch
      "Tensor A device \x7b\x7d and Tensor B device \x7b\x7d mismatch"
  -- Check dtypes
  let dtype := A.GetDtype
  if dtype ≠ B.GetDtype then
    LogError ErrorKind.UnsupportedDtype
      "Tensor A dtype \x7b\x7d and Tensor B dtype \x7b\x7d mismatch"
  if dtype ≠ Dtype.Float32 ∧ dtype ≠ Dtype.Float64 then
    LogError ErrorKind.UnsupportedDtype
      "Only tensors with Float32 or Float64 are supported, but received \x7b\x7d"
  -- Check dimensions
  let A_shape := A.GetShape
  let B_shape := B.GetShape
  if A_shape.length ≠ 2 then
    LogError ErrorKind.ShapeError "Tensor A must be 2D, but got \x7b\x7dD"
  if A_shape.getD 0 0 ≠ A_shape.getD 1 0 then
    LogError ErrorKind.ShapeError "Tensor A must be square, but got \x7b\x7d x \x7b\x7d"
  if B_shape.length ≠ 1 ∧ B_shape.length ≠ 2 then
    LogError ErrorKind.ShapeError
      "Tensor B must be 1D (vector) or 2D (matrix), but got \x7b\x7dD"
  if A_shape.getD 1 0 ≠ B_shape.getD 0 0 then
    LogError ErrorKind.DimensionMismatch
      "Tensor A columns \x7b\x7d mismatch with Tensor B rows \x7b\x7d"
  let n : Int := toInt32 (A_shape.getD 0 0)
  let m : Int := toInt32 (if B_shape.length = 2 then B_shape.getD 1 0 else 1)
  let ipiv ← Tensor.Empty [n] Dtype.Int32 device
  let ipiv_data := ipiv.GetDataPtr
  if device.GetType = DeviceType.CUDA then
    if BUILD_CUDA_MODULE then
      -- cuSolver uses column-wise storage
      let A_copy ← A.T.Copy device
      let A_data := A_copy.GetDataPtr
      let B_copy ← B.T.Copy device
      let B_data := B_copy.GetDataPtr
      assignX (← Tensor.Empty B_copy.GetShape B.GetDtype device)
      let X_data := (← readX).GetDataPtr
      SolveCUDA K A_data B_data ipiv_data (some X_data) n m dtype device
      assignX (← readX).T
    else
      LogError ErrorKind.UnsupportedDevice "Unimplemented device."
  else
    let A_copy ← A.Copy device
    let A_data := A_copy.GetDataPtr
    -- LAPACKE changes solves X by modifying B in-place
    assignX (← B.Copy device)
    let B_data := (← readX).GetDataPtr
    SolveCPU K A_data B_data ipiv_data none n m dtype device

/-! ## `InverseCPU` -/

/-- A call of a LAPACKE factorization routine: it overwrites the matrix with its
factors and the pivot buffer with the pivots, and returns its status. -/
def callGetrf (f : MatrixLayout → Int → Int → List Scalar → Int → List Scalar → GetrfOut)
    (event : MatrixLayout → Int → Int → Ptr → Int → Ptr → Int → Event)
    (layout : MatrixLayout) (m n : Int) (a : Ptr) (lda : Int) (ipiv : Ptr) : Exec Int :=
  fun s =>
    let out := f layout m n (load s.heap a) lda (load s.heap ipiv)
    (Except.ok out.info,
      { s with
        heap := store (store s.heap a out.a) ipiv out.ipiv
        trace := s.trace ++ [event layout m n a lda ipiv out.info] })

/-- A call of a LAPACKE inversion routine: it overwrites the factors with the
inverse, reads the pivot buffer, and returns its status. -/
def callGetri (f : MatrixLayout → Int → List Scalar → Int → List Scalar → GetriOut)
    (event : MatrixLayout → Int → Ptr → Int → Ptr → Int → Event)
    (layout : MatrixLayout) (n : Int) (a : Ptr) (lda : Int) (ipiv : Ptr) : Exec Int :=
  fun s =>
    let out := f layout n (load s.heap a) lda (load s.heap ipiv)
    (Except.ok out.info,
      { s with
        heap := store s.heap a out.a
        trace := s.trace ++ [event layout n a lda ipiv out.info] })

/-- The call `LAPACKE_sgetrf(matrix_layout, m, n, a, lda, ipiv)`. -/
def LAPACKE_sgetrf (L : Lapacke) := callGetrf L.sgetrf Event.LAPACKE_sgetrf

/-- The call `LAPACKE_sgetri(matrix_layout, n, a, lda, ipiv)`. -/
def LAPACKE_sgetri (L : Lapacke) := callGetri L.sgetri Event.LAPACKE_sgetri

/-- The call `LAPACKE_dgetrf(matrix_layout, m, n, a, lda, ipiv)`. -/
def LAPACKE_dgetrf (L : Lapacke) := callGetrf L.dgetrf Event.LAPACKE_dgetrf

/-- The call `LAPACKE_dgetri(matrix_layout, n, a, lda, ipiv)`. -/
def LAPACKE_dgetri (L : Lapacke) := callGetri L.dgetri Event.LAPACKE_dgetri

/-- The function `InverseCPU(A_data, ipiv_data, output_data, n, dtype, device)` of
`InverseCPU.cpp`. The statuses returned by the LAPACKE routines are discarded, as
in the source. -/
def InverseCPU (L : Lapacke) (A_data ipiv_data : Ptr) (_output_data : Option Ptr)
    (n : Int) (dtype : Dtype) (_device : Device) : Exec Unit := do
  match dtype with
  | Dtype.Float32 =>
      let _ ← LAPACKE_sgetrf L MatrixLayout.LAPACK_ROW_MAJOR n n A_data n ipiv_data
      let _ ← LAPACKE_sgetri L MatrixLayout.LAPACK_ROW_MAJOR n A_data n ipiv_data
  | Dtype.Float64 =>
      let _ ← LAPACKE_dgetrf L MatrixLayout.LAPACK_ROW_MAJOR n n A_data n ipiv_data
      let _ ← LAPACKE_dgetri L MatrixLayout.LAPACK_ROW_MAJOR n A_data n ipiv_data
  | _ =>
      -- should never reach here
      LogError ErrorKind.UnsupportedDtype "Unsupported dtype \x7b\x7d in CPU backend."

/-! ## The two paths of `Solve`, unfolded

The definitions below name the arguments and the machine state with which
`Solve` reaches its adapter; `Solve_host` and `Solve_accelerator` prove that
`Solve` behaves so. -/

/-- The dimension argument `n` that `Solve` computes. -/
def solveN (A : Tensor) : Int := toInt32 (A.shape.getD 0 0)

/-- The column count `m` that `Solve` computes. -/
def solveM (B : Tensor) : Int :=
  toInt32 (if B.shape.length = 2 then B.shape.getD 1 0 else 1)

/-- The buffer of the pivot vector right after its allocation. -/
def ipivBlob (A : Tensor) : Blob :=
  ⟨A.device, List.replicate (numElements [solveN A]) 0⟩

/-- The machine state in which the host path calls `SolveCPU`: the pivot vector,
the copy of `A` and the copy of `B`, which `X` is bound to, have been added. -/
def hostPrepared (A B : Tensor) (s : Machine) : Machine :=
  let h1 := s.heap ++ [ipivBlob A]
  let h2 := h1 ++ [⟨A.device, A.contents h1⟩]
  { heap := h2 ++ [⟨A.device, B.contents h2⟩]
    trace := s.trace ++
      [Event.Empty [solveN A] Dtype.Int32 A.device s.heap.length,
       Event.Copy A A.device (s.heap.length + 1),
       Event.Copy B A.device (s.heap.length + 2)]
    X := ⟨B.shape, defaultStrides B.shape, B.dtype, A.device, s.heap.length + 2, 0⟩ }

/-- The arguments with which the host path calls `SolveCPU`. -/
def hostArgs (A B : Tensor) (s : Machine) : SolveArgs :=
  ⟨⟨s.heap.length + 1, 0⟩, ⟨s.heap.length + 2, 0⟩, ⟨s.heap.length, 0⟩, none,
    solveN A, solveM B, A.dtype, A.device⟩

/-- The machine state in which the accelerator path calls `SolveCUDA`: the pivot
vector, the copies of the transposes of `A` and of `B` and the output buffer,
which `X` is bound to, have been added. -/
def cudaPrepared (A B : Tensor) (s : Machine) : Machine :=
  let h1 := s.heap ++ [ipivBlob A]
  let h2 := h1 ++ [⟨A.device, A.T.contents h1⟩]
  let h3 := h2 ++ [⟨A.device, B.T.contents h2⟩]
  { heap := h3 ++ [⟨A.device, List.replicate (numElements B.shape.reverse) 0⟩]
    trace := s.trace ++
      [Event.Empty [solveN A] Dtype.Int32 A.device s.heap.length,
       Event.Copy A.T A.device (s.heap.length + 1),
       Event.Copy B.T A.device (s.heap.length + 2),
       Event.Empty B.shape.reverse B.dtype A.device (s.heap.length + 3)]
    X := ⟨B.shape.reverse, defaultStrides B.shape.reverse, B.dtype, A.device,
      s.heap.length + 3, 0⟩ }

/-- The arguments with which the accelerator path calls `SolveCUDA`. -/
def cudaArgs (A B : Tensor) (s : Machine) : SolveArgs :=
  ⟨⟨s.heap.length + 1, 0⟩, ⟨s.heap.length + 2, 0⟩, ⟨s.heap.length, 0⟩,
    some ⟨s.heap.length + 3, 0⟩, solveN A, solveM B, A.dtype, A.device⟩

/-- The final assignment `X = X.T()` of the accelerator path, reached when the
adapter returned normally. -/
def transposeX (r : Except Error Unit × Machine) : Except Error Unit × Machine :=
  match r with
  | (Except.ok _, s) => (Except.ok (), { s with X := s.X.T })
  | (Except.error e, s) => (Except.error e, s)

/-! ## The Validator of the specification -/

/-- The checks of the Validator of the specification (section 4.1) for `Solve`, in
the order of the specification: whether the check passes, and the error kind
reported when it does not. This definition follows the wording of the
specification; it is compared with `Solve`. -/
def validatorChecks (A B : Tensor) : List (Bool × ErrorKind) :=
  [ (decide (A.device = B.device), ErrorKind.DeviceMismatch),
    (decide (A.dtype = B.dtype ∧ (A.dtype = Dtype.Float32 ∨ A.dtype = Dtype.Float64)),
      ErrorKind.UnsupportedDtype),
    (decide (A.shape.length = 2), ErrorKind.ShapeError),
    (decide (A.shape.getD 0 0 = A.shape.getD 1 0), ErrorKind.ShapeError),
    (decide (B.shape.length = 1 ∨ B.shape.length = 2), ErrorKind.ShapeError),
    (decide (A.shape.getD 1 0 = B.shape.getD 0 0), ErrorKind.DimensionMismatch) ]

/-- The error kind of the first failing check of a list of checks, if any. -/
def firstFailing : List (Bool × ErrorKind) → Option ErrorKind
  | [] => none
  | (true, _) :: cs => firstFailing cs
  | (false, k) :: _ => some k

/-- The Validator of the specification: the error kind of the first failing
check, `none` when every check passes. -/
def Validator (A B : Tensor) : Option ErrorKind :=
  firstFailing (validatorChecks A B)

/-- The error kind a call failed with, `none` when it returned normally. -/
def failure? {α : Type} : Except Error α → Option ErrorKind
  | Except.error e => some e.kind
  | Except.ok _ => none


/-! ## Observations on the log -/

/-- The pointers of a call of a solve adapter. -/
def SolveArgs.pointers (a : SolveArgs) : List Ptr :=
  [a.A_data, a.B_data, a.ipiv_data] ++ a.X_data.toList

/-- The buffers an event hands to a kernel; none for an allocation or a copy. -/
def Event.handed : Event → List Ptr
  | Event.SolveCPU args _ _ => args.pointers
  | Event.SolveCUDA args _ _ => args.pointers
  | Event.LAPACKE_sgetrf _ _ _ a _ ipiv _ => [a, ipiv]
  | Event.LAPACKE_sgetri _ _ a _ ipiv _ => [a, ipiv]
  | Event.LAPACKE_dgetrf _ _ _ a _ ipiv _ => [a, ipiv]
  | Event.LAPACKE_dgetri _ _ a _ ipiv _ => [a, ipiv]
  | _ => []

/-- The arguments of an event that is a call of a solve adapter. -/
def Event.solveArgs? : Event → Option SolveArgs
  | Event.SolveCPU args _ _ => some args
  | Event.SolveCUDA args _ _ => some args
  | _ => none

/-- Whether an event is a call of the CPU adapter. -/
def Event.isSolveCPU : Event → Bool
  | Event.SolveCPU _ _ _ => true
  | _ => false

/-- Whether an event is a call of the accelerator adapter. -/
def Event.isSolveCUDA : Event → Bool
  | Event.SolveCUDA _ _ _ => true
  | _ => false

/-- The number of calls of the CPU adapter in a log. -/
def cpuCalls (trace : List Event) : Nat := trace.countP Event.isSolveCPU

/-- The number of calls of the accelerator adapter in a log. -/
def cudaCalls (trace : List Event) : Nat := trace.countP Event.isSolveCUDA

/-- A tensor of a heap: its buffer is allocated and it has one stride per
extent. -/
def Tensor.WellFormed (heap : Heap) (t : Tensor) : Prop :=
  t.blob < heap.length ∧ t.strides.length = t.shape.length

instance (heap : Heap) (t : Tensor) : Decidable (t.WellFormed heap) := by
  unfold Tensor.WellFormed
  infer_instance

/-! ## Sample inputs -/

namespace Sample

/-- The host device. -/
def cpu : Device := ⟨DeviceType.CPU, 0⟩

/-- An accelerator device. -/
def gpu : Device := ⟨DeviceType.CUDA, 0⟩

/-- The matrix `[[2, 0], [0, 2]]` on the host, in buffer 0. -/
def A : Tensor := ⟨[2, 2], [2, 1], Dtype.Float64, cpu, 0, 0⟩

/-- The vector `[4, 6]` on the host, in buffer 1. -/
def B : Tensor := ⟨[2], [1], Dtype.Float64, cpu, 1, 0⟩

/-- A matrix of 2 rows and 3 columns on the host, in buffer 2. -/
def B23 : Tensor := ⟨[2, 3], [3, 1], Dtype.Float64, cpu, 2, 0⟩

/-- A tensor variable for the result, bound to an empty tensor. -/
def X : Tensor := ⟨[0], [1], Dtype.Float64, cpu, 3, 0⟩

/-- A host machine state holding `A`, `B`, `B23` and `X`. -/
def host : Machine :=
  ⟨[⟨cpu, [2, 0, 0, 2]⟩, ⟨cpu, [4, 6]⟩, ⟨cpu, [1, 2, 3, 4, 5, 6]⟩, ⟨cpu, []⟩], [], X⟩

/-- The matrix `[[1, 2], [3, 4]]` on the accelerator, in buffer 0. -/
def Agpu : Tensor := ⟨[2, 2], [2, 1], Dtype.Float32, gpu, 0, 0⟩

/-- A matrix of 2 rows and 3 columns on the accelerator, in buffer 1. -/
def Bgpu : Tensor := ⟨[2, 3], [3, 1], Dtype.Float32, gpu, 1, 0⟩

/-- An accelerator machine state holding `Agpu` and `Bgpu`. -/
def device : Machine :=
  ⟨[⟨gpu, [1, 2, 3, 4]⟩, ⟨gpu, [10, 20, 30, 40, 50, 60]⟩], [], X⟩

/-- A solve adapter that succeeds: it leaves the matrix, writes a mark into the
right-hand side and a second mark into the output buffer. -/
def kernel : SolveKernel :=
  fun a b p x _ _ _ _ => ⟨a, b.map (fun v => v + 100), p, (x.getD []).map (fun v => v + 7), none⟩

/-- Two succeeding adapters. -/
def backends : Backends := ⟨kernel, kernel⟩

/-- An integer tensor of 2 rows and 3 columns on the accelerator. -/
def bad : Tensor := ⟨[2, 3], [3, 1], Dtype.Int32, gpu, 0, 0⟩

/-- A host matrix of 2 rows and 3 columns, in buffer 2. -/
def A23 : Tensor := ⟨[2, 3], [3, 1], Dtype.Float64, cpu, 2, 0⟩

end Sample

namespace Sample

/-- LAPACKE routines that mark what they write: a factorization adds 10 to every
element of the matrix, stores the pivots 1 and 2 and reports status 0; an
inversion adds the first pivot it reads to every element and reports status 5. -/
def marking : Lapacke :=
  { sgetrf := fun _ _ _ a _ _ => ⟨0, a.map (fun v => v + 10), [1, 2]⟩
    sgetri := fun _ _ a _ ipiv => ⟨5, a.map (fun v => v + ipiv.headD 0)⟩
    dgetrf := fun _ _ _ a _ _ => ⟨0, a.map (fun v => v + 10), [1, 2]⟩
    dgetri := fun _ _ a _ ipiv => ⟨5, a.map (fun v => v + ipiv.headD 0)⟩ }

/-- A host machine state holding a singular matrix of zeros in buffer 0 and a
pivot buffer in buffer 1. -/
def zeros : Machine := ⟨[⟨cpu, [0, 0, 0, 0]⟩, ⟨cpu, [0, 0]⟩], [], X⟩

end Sample

namespace Sample

/-- A host matrix of 1 row and 1 column, in buffer 0. -/
def Aone : Tensor := ⟨[1, 1], [1, 1], Dtype.Float32, cpu, 0, 0⟩

/-- A host right-hand side of 1 row and 2147483648 columns: the view of the one
element of buffer 1 expanded along its second dimension. -/
def Bwide : Tensor := ⟨[1, 2147483648], [1, 0], Dtype.Float32, cpu, 1, 0⟩

/-- A host machine state holding `Aone` and `Bwide`. -/
def wide : Machine := ⟨[⟨cpu, [3]⟩, ⟨cpu, [6]⟩], [], X⟩

end Sample

/-! ## Lemmas on the Validator -/

theorem firstFailing_cons_true (k : ErrorKind) (cs : List (Bool × ErrorKind)) (b : Bool)
    (h : b = true) : firstFailing ((b, k) :: cs) = firstFailing cs := by
  subst h; rfl

theorem firstFailing_cons_false (k : ErrorKind) (cs : List (Bool × ErrorKind)) (b : Bool)
    (h : b = false) : firstFailing ((b, k) :: cs) = some k := by
  subst h; rfl

theorem length_eq_two_shape (l : List Int) (h : l.length = 2) : ∃ a b, l = [a, b] := by
  match l, h with
  | [a, b], _ => exact ⟨a, b, rfl⟩

theorem length_eq_one_shape (l : List Int) (h : l.length = 1) : ∃ a, l = [a] := by
  match l, h with
  | [a], _ => exact ⟨a, rfl⟩

/-- The operands that pass every check of the Validator. -/
theorem Validator_eq_none_iff (A B : Tensor) :
    Validator A B = none ↔
      A.device = B.device ∧ A.dtype = B.dtype ∧
      (A.dtype = Dtype.Float32 ∨ A.dtype = Dtype.Float64) ∧
      A.shape.length = 2 ∧ A.shape.getD 0 0 = A.shape.getD 1 0 ∧
      (B.shape.length = 1 ∨ B.shape.length = 2) ∧
      A.shape.getD 1 0 = B.shape.getD 0 0 := by
  unfold Validator validatorChecks
  by_cases h1 : A.device = B.device
  swap
  · rw [firstFailing_cons_false _ _ _ (decide_eq_false h1)]; simp [h1]
  rw [firstFailing_cons_true _ _ _ (decide_eq_true h1)]
  by_cases h2 : A.dtype = B.dtype ∧ (A.dtype = Dtype.Float32 ∨ A.dtype = Dtype.Float64)
  swap
  · rw [firstFailing_cons_false _ _ _ (decide_eq_false h2)]
    constructor
    · intro h; cases h
    · intro h; exact absurd ⟨h.2.1, h.2.2.1⟩ h2
  rw [firstFailing_cons_true _ _ _ (decide_eq_true h2)]
  by_cases h3 : A.shape.length = 2
  swap
  · rw [firstFailing_cons_false _ _ _ (decide_eq_false h3)]
    constructor
    · intro h; cases h
    · intro h; exact absurd h.2.2.2.1 h3
  rw [firstFailing_cons_true _ _ _ (decide_eq_true h3)]
  by_cases h4 : A.shape.getD 0 0 = A.shape.getD 1 0
  swap
  · rw [firstFailing_cons_false _ _ _ (decide_eq_false h4)]
    constructor
    · intro h; cases h
    · intro h; exact absurd h.2.2.2.2.1 h4
  rw [firstFailing_cons_true _ _ _ (decide_eq_true h4)]
  by_cases h5 : B.shape.length = 1 ∨ B.shape.length = 2
  swap
  · rw [firstFailing_cons_false _ _ _ (decide_eq_false h5)]
    constructor
    · intro h; cases h
    · intro h; exact absurd h.2.2.2.2.2.1 h5
  rw [firstFailing_cons_true _ _ _ (decide_eq_true h5)]
  by_cases h6 : A.shape.getD 1 0 = B.shape.getD 0 0
  swap
  · rw [firstFailing_cons_false _ _ _ (decide_eq_false h6)]
    constructor
    · intro h; cases h
    · intro h; exact absurd h.2.2.2.2.2.2 h6
  rw [firstFailing_cons_true _ _ _ (decide_eq_true h6)]
  exact ⟨fun _ => ⟨h1, h2.1, h2.2, h3, h4, h5, h6⟩, fun _ => rfl⟩

/-- The shapes of operands that pass every check: `A` is `n × n` and `B` is a
vector of length `n` or an `n × m` matrix. -/
theorem Validator_shapes (A B : Tensor) (h : Validator A B = none) :
    ∃ n : Int, A.shape = [n, n] ∧ (B.shape = [n] ∨ ∃ m : Int, B.shape = [n, m]) := by
  obtain ⟨_, _, _, h3, h4, h5, h6⟩ := (Validator_eq_none_iff A B).1 h
  obtain ⟨a0, a1, hA⟩ := length_eq_two_shape _ h3
  rw [hA] at h4 h6
  simp at h4 h6
  subst h4
  refine ⟨a0, hA, ?_⟩
  rcases h5 with h5 | h5
  · obtain ⟨b0, hB⟩ := length_eq_one_shape _ h5
    rw [hB] at h6; simp at h6; subst h6
    exact Or.inl hB
  · obtain ⟨b0, b1, hB⟩ := length_eq_two_shape _ h5
    rw [hB] at h6; simp at h6; subst h6
    exact Or.inr ⟨b1, hB⟩

/-! ## `Solve` on operands that fail validation -/

/-- When a check of the Validator fails, `Solve` fails with the kind of the first
failing check and leaves the machine state as it found it. -/
theorem Solve_invalid (cuda : Bool) (K : Backends) (A B : Tensor) (s : Machine)
    (k : ErrorKind) (h : Validator A B = some k) :
    (Solve cuda K A B s).2 = s ∧ failure? (Solve cuda K A B s).1 = some k := by
  unfold Validator validatorChecks at h
  by_cases h1 : A.device = B.device
  swap
  · rw [firstFailing_cons_false _ _ _ (decide_eq_false h1)] at h
    cases h
    simp [Solve, bind, Exec.bind, LogError, Tensor.GetDevice, h1, failure?]
  rw [firstFailing_cons_true _ _ _ (decide_eq_true h1)] at h
  by_cases h2 : A.dtype = B.dtype ∧ (A.dtype = Dtype.Float32 ∨ A.dtype = Dtype.Float64)
  swap
  · rw [firstFailing_cons_false _ _ _ (decide_eq_false h2)] at h
    cases h
    by_cases h2a : A.dtype = B.dtype
    · have h2b : ¬ A.dtype = Dtype.Float32 ∧ ¬ A.dtype = Dtype.Float64 := by tauto
      rw [h2a] at h2b
      simp [Solve, bind, Exec.bind, LogError, pure, Exec.pure, Tensor.GetDevice,
        Tensor.GetDtype, h1, h2a, h2b, failure?]
    · simp [Solve, bind, Exec.bind, LogError, pure, Exec.pure, Tensor.GetDevice,
        Tensor.GetDtype, h1, h2a, failure?]
  rw [firstFailing_cons_true _ _ _ (decide_eq_true h2)] at h
  obtain ⟨h2a, h2b⟩ := h2
  have h2c : ¬ (¬ B.dtype = Dtype.Float32 ∧ ¬ B.dtype = Dtype.Float64) := by
    rw [← h2a]; tauto
  by_cases h3 : A.shape.length = 2
  swap
  · rw [firstFailing_cons_false _ _ _ (decide_eq_false h3)] at h
    cases h
    simp [Solve, bind, Exec.bind, LogError, pure, Exec.pure, Tensor.GetDevice,
        Tensor.GetDtype, Tensor.GetShape, h1, h2a, h2c, h3, failure?]
  rw [firstFailing_cons_true _ _ _ (decide_eq_true h3)] at h
  obtain ⟨a0, a1, hA⟩ := length_eq_two_shape _ h3
  rw [hA] at h
  by_cases h4 : a0 = a1
  swap
  · rw [firstFailing_cons_false _ _ _ (by simpa using h4)] at h
    cases h
    simp [Solve, bind, Exec.bind, LogError, pure, Exec.pure, Tensor.GetDevice,
        Tensor.GetDtype, Tensor.GetShape, h1, h2a, h2c, hA, h4, failure?]
  rw [firstFailing_cons_true _ _ _ (by simpa using h4)] at h
  by_cases h5 : B.shape.length = 1 ∨ B.shape.length = 2
  swap
  · rw [firstFailing_cons_false _ _ _ (decide_eq_false h5)] at h
    cases h
    have h5a : ¬ B.shape.length = 1 ∧ ¬ B.shape.length = 2 := by tauto
    simp [Solve, bind, Exec.bind, LogError, pure, Exec.pure, Tensor.GetDevice,
        Tensor.GetDtype, Tensor.GetShape, h1, h2a, h2c, hA, h4, h5a, failure?]
  rw [firstFailing_cons_true _ _ _ (decide_eq_true h5)] at h
  have h5a : ¬ (¬ B.shape.length = 1 ∧ ¬ B.shape.length = 2) := by tauto
  by_cases h6 : a1 = B.shape.getD 0 0
  swap
  · rw [firstFailing_cons_false _ _ _ (by simpa using h6)] at h
    cases h
    have h6a : ¬ a1 = B.shape[0]?.getD 0 := by simpa using h6
    simp [Solve, bind, Exec.bind, LogError, pure, Exec.pure, Tensor.GetDevice,
        Tensor.GetDtype, Tensor.GetShape, h1, h2a, h2c, hA, h4, h5a, h6a, failure?]
  rw [firstFailing_cons_true _ _ _ (by simpa using h6)] at h
  cases h

/-! ## `Solve` on operands that pass validation -/

/-- The host path: after validation `Solve` prepares the pivot vector and the
two copies and calls `SolveCPU`. -/
theorem Solve_host (cuda : Bool) (K : Backends) (A B : Tensor) (s : Machine)
    (hv : Validator A B = none) (hd : A.device.GetType ≠ DeviceType.CUDA) :
    Solve cuda K A B s =
      callSolveKernel K.SolveCPU Event.SolveCPU (hostArgs A B s) (hostPrepared A B s) := by
  obtain ⟨h1, h2, h3, -, -, -, -⟩ := (Validator_eq_none_iff A B).1 hv
  obtain ⟨n, hA, hB⟩ := Validator_shapes A B hv
  obtain ⟨Ash, Ast, Adt, Adev, Abl, Aoff⟩ := A
  obtain ⟨Bsh, Bst, Bdt, Bdev, Bbl, Boff⟩ := B
  simp only at h1 h2 h3 hA hB hd
  subst h1 h2 hA
  have h3c : ¬ (¬ Adt = Dtype.Float32 ∧ ¬ Adt = Dtype.Float64) := by tauto
  rcases hB with hB | ⟨m, hB⟩
  · subst hB
    simp [Solve, bind, Exec.bind, LogError, pure, Exec.pure, Tensor.GetDevice,
      Tensor.GetDtype, Tensor.GetShape, h3c, hd, Tensor.Empty, Tensor.Copy, assignX, readX,
      SolveCPU, hostArgs, hostPrepared, solveN, solveM, ipivBlob, Tensor.GetDataPtr]
  · subst hB
    simp [Solve, bind, Exec.bind, LogError, pure, Exec.pure, Tensor.GetDevice,
      Tensor.GetDtype, Tensor.GetShape, h3c, hd, Tensor.Empty, Tensor.Copy, assignX, readX,
      SolveCPU, hostArgs, hostPrepared, solveN, solveM, ipivBlob, Tensor.GetDataPtr]

/-- The accelerator path with the accelerator module built in: after validation
`Solve` prepares the pivot vector, the copies of the transposes and the output
buffer, calls `SolveCUDA` and transposes `X` back. -/
theorem Solve_accelerator (K : Backends) (A B : Tensor) (s : Machine)
    (hv : Validator A B = none) (hd : A.device.GetType = DeviceType.CUDA) :
    Solve true K A B s =
      transposeX
        (callSolveKernel K.SolveCUDA Event.SolveCUDA (cudaArgs A B s) (cudaPrepared A B s)) := by
  obtain ⟨h1, h2, h3, -, -, -, -⟩ := (Validator_eq_none_iff A B).1 hv
  obtain ⟨n, hA, hB⟩ := Validator_shapes A B hv
  obtain ⟨Ash, Ast, Adt, Adev, Abl, Aoff⟩ := A
  obtain ⟨Bsh, Bst, Bdt, Bdev, Bbl, Boff⟩ := B
  simp only at h1 h2 h3 hA hB hd
  subst h1 h2 hA
  have h3c : ¬ (¬ Adt = Dtype.Float32 ∧ ¬ Adt = Dtype.Float64) := by tauto
  rcases hB with hB | ⟨m, hB⟩
  · subst hB
    simp [Solve, bind, Exec.bind, LogError, pure, Exec.pure, Tensor.GetDevice,
      Tensor.GetDtype, Tensor.GetShape, h3c, hd, Tensor.Empty, Tensor.Copy, assignX, readX,
      SolveCUDA, cudaArgs, cudaPrepared, solveN, solveM, ipivBlob, Tensor.GetDataPtr,
      callSolveKernel, transposeX, Tensor.T]
    split <;> simp_all
  · subst hB
    simp [Solve, bind, Exec.bind, LogError, pure, Exec.pure, Tensor.GetDevice,
      Tensor.GetDtype, Tensor.GetShape, h3c, hd, Tensor.Empty, Tensor.Copy, assignX, readX,
      SolveCUDA, cudaArgs, cudaPrepared, solveN, solveM, ipivBlob, Tensor.GetDataPtr,
      callSolveKernel, transposeX, Tensor.T]
    split <;> simp_all

/-- The accelerator path without the accelerator module: after validation `Solve`
allocates the pivot vector and fails with `UnsupportedDevice`. -/
theorem Solve_unimplemented (K : Backends) (A B : Tensor) (s : Machine)
    (hv : Validator A B = none) (hd : A.device.GetType = DeviceType.CUDA) :
    Solve false K A B s =
      (Except.error ⟨ErrorKind.UnsupportedDevice, "Unimplemented device."⟩,
        { s with
          heap := s.heap ++ [ipivBlob A]
          trace := s.trace ++ [Event.Empty [solveN A] Dtype.Int32 A.device s.heap.length] }) := by
  obtain ⟨h1, h2, h3, -, -, -, -⟩ := (Validator_eq_none_iff A B).1 hv
  obtain ⟨n, hA, hB⟩ := Validator_shapes A B hv
  obtain ⟨Ash, Ast, Adt, Adev, Abl, Aoff⟩ := A
  obtain ⟨Bsh, Bst, Bdt, Bdev, Bbl, Boff⟩ := B
  simp only at h1 h2 h3 hA hB hd
  subst h1 h2 hA
  have h3c : ¬ (¬ Adt = Dtype.Float32 ∧ ¬ Adt = Dtype.Float64) := by tauto
  rcases hB with hB | ⟨m, hB⟩
  · subst hB
    simp [Solve, bind, Exec.bind, LogError, pure, Exec.pure, Tensor.GetDevice,
      Tensor.GetDtype, Tensor.GetShape, h3c, hd, Tensor.Empty, solveN, ipivBlob]
  · subst hB
    simp [Solve, bind, Exec.bind, LogError, pure, Exec.pure, Tensor.GetDevice,
      Tensor.GetDtype, Tensor.GetShape, h3c, hd, Tensor.Empty, solveN, ipivBlob]

/-! ## Lemmas on the heap -/

theorem store_getElem?_of_ne (heap : Heap) (p : Ptr) (data : List Scalar) (i : Nat)
    (h : i ≠ p.blob) : (store heap p data)[i]? = heap[i]? := by
  unfold store
  split
  · exact List.getElem?_set_ne (Ne.symm h)
  · rfl

/-- A solve adapter leaves every buffer it was not handed as it was. -/
theorem writeBack_getElem?_of_lt (heap : Heap) (args : SolveArgs) (out : KernelOut)
    (L i : Nat) (hi : i < L) (hA : L ≤ args.A_data.blob) (hB : L ≤ args.B_data.blob)
    (hP : L ≤ args.ipiv_data.blob) (hX : ∀ p, args.X_data = some p → L ≤ p.blob) :
    (writeBack heap args out)[i]? = heap[i]? := by
  unfold writeBack storeOpt
  have h3 : (store (store (store heap args.A_data out.A_data) args.B_data out.B_data)
      args.ipiv_data out.ipiv_data)[i]? = heap[i]? := by
    rw [store_getElem?_of_ne _ _ _ _ (by omega), store_getElem?_of_ne _ _ _ _ (by omega),
      store_getElem?_of_ne _ _ _ _ (by omega)]
  cases hx : args.X_data with
  | none => exact h3
  | some p =>
    have := hX p hx
    simp only
    rw [store_getElem?_of_ne _ _ _ _ (by omega)]
    exact h3

theorem callSolveKernel_trace (k : SolveKernel)
    (event : SolveArgs → List Scalar → List Scalar → Event) (args : SolveArgs) (s : Machine) :
    (callSolveKernel k event args s).2.trace =
      s.trace ++ [event args (load s.heap args.A_data) (load s.heap args.B_data)] := by
  unfold callSolveKernel
  simp only
  split <;> rfl

theorem callSolveKernel_X (k : SolveKernel)
    (event : SolveArgs → List Scalar → List Scalar → Event) (args : SolveArgs) (s : Machine) :
    (callSolveKernel k event args s).2.X = s.X := by
  unfold callSolveKernel
  simp only
  split <;> rfl

theorem callSolveKernel_heap (k : SolveKernel)
    (event : SolveArgs → List Scalar → List Scalar → Event) (args : SolveArgs) (s : Machine) :
    ∃ out, (callSolveKernel k event args s).2.heap = writeBack s.heap args out := by
  unfold callSolveKernel
  simp only
  split <;> exact ⟨_, rfl⟩

theorem transposeX_trace (r : Except Error Unit × Machine) :
    (transposeX r).2.trace = r.2.trace := by
  obtain ⟨x, s⟩ := r
  cases x <;> rfl

theorem transposeX_heap (r : Except Error Unit × Machine) :
    (transposeX r).2.heap = r.2.heap := by
  obtain ⟨x, s⟩ := r
  cases x <;> rfl

theorem transposeX_failure (r : Except Error Unit × Machine) :
    failure? (transposeX r).1 = failure? r.1 := by
  obtain ⟨x, s⟩ := r
  cases x <;> rfl

theorem transposeX_ok (r : Except Error Unit × Machine) (h : (transposeX r).1 = Except.ok ()) :
    (transposeX r).2.X = r.2.X.T := by
  obtain ⟨x, s⟩ := r
  cases x
  · simp [transposeX] at h
  · rfl

/-- A tensor allocated in a heap reads the same elements after further
allocations. -/
theorem elem_append (heap more : Heap) (t : Tensor) (idx : List Int)
    (h : t.blob < heap.length) : t.elem (heap ++ more) idx = t.elem heap idx := by
  unfold Tensor.elem
  rw [List.getElem?_append_left h]

theorem contents_append (heap more : Heap) (t : Tensor) (h : t.blob < heap.length) :
    t.contents (heap ++ more) = t.contents heap := by
  unfold Tensor.contents
  simp only [elem_append heap more t _ h]

/-- A tensor reads the same elements from two heaps that agree on its buffer. -/
theorem elem_congr (h1 h2 : Heap) (t : Tensor) (idx : List Int)
    (h : h2[t.blob]? = h1[t.blob]?) : t.elem h2 idx = t.elem h1 idx := by
  unfold Tensor.elem
  rw [h]

/-! ## Lemmas on copies and transposed views -/

theorem load_fresh (heap : Heap) (bs : List Blob) (k : Nat) (b : Blob)
    (hk : bs[k]? = some b) : load (heap ++ bs) ⟨heap.length + k, 0⟩ = b.data := by
  unfold load
  simp only
  rw [List.getElem?_append_right (Nat.le_add_right _ _), Nat.add_sub_cancel_left, hk]
  rfl

/-- The row-major position of the element `(i, j)` of a matrix of `c` columns
unravels to `(i, j)`. -/
theorem unravel_matrix (r c : Int) (i j : Nat) (hi : (i : Int) < r) (hj : (j : Int) < c) :
    unravel [r, c] ((i * c.toNat + j : Nat) : Int) = [(i : Int), (j : Int)] := by
  have hc : 0 < c := lt_of_le_of_lt (Int.natCast_nonneg j) hj
  have hc' : ((c.toNat : Nat) : Int) = c := Int.toNat_of_nonneg hc.le
  have hk : ((i * c.toNat + j : Nat) : Int) = (j : Int) + (i : Int) * c := by
    push_cast
    rw [hc']
    ring
  simp only [unravel, defaultStrides, numElements, List.map_cons, List.map_nil,
    List.prod_cons, List.prod_nil, mul_one, List.zipWith_cons_cons, List.zipWith_nil_right,
    Nat.cast_one, Int.ediv_one]
  rw [hc', hk, Int.add_mul_ediv_right _ _ hc.ne',
    Int.ediv_eq_zero_of_lt (Int.natCast_nonneg j) hj, zero_add,
    Int.emod_eq_of_lt (Int.natCast_nonneg i) hi, Int.add_mul_emod_self,
    Int.emod_eq_of_lt (Int.natCast_nonneg j) hj]

/-- The position of the element `i` of a vector unravels to `i`. -/
theorem unravel_vector (n : Int) (i : Nat) (hi : (i : Int) < n) :
    unravel [n] (i : Int) = [(i : Int)] := by
  simp only [unravel, defaultStrides, numElements, List.map_nil, List.prod_nil,
    List.zipWith_cons_cons, List.zipWith_nil_right, Nat.cast_one, Int.ediv_one]
  rw [Int.emod_eq_of_lt (Int.natCast_nonneg i) hi]

/-- The row-major contents of a matrix hold its element `(i, j)` at position
`i * c + j`. -/
theorem contents_matrix (heap : Heap) (t : Tensor) (r c : Int) (ht : t.shape = [r, c])
    (i j : Nat) (hi : (i : Int) < r) (hj : (j : Int) < c) :
    (t.contents heap)[i * c.toNat + j]? =
      some ((t.elem heap [(i : Int), (j : Int)]).getD 0) := by
  have hlt : i * c.toNat + j < numElements [r, c] := by
    have h1 : i < r.toNat := by omega
    have h2 : j < c.toNat := by omega
    simp only [numElements, List.map_cons, List.map_nil, List.prod_cons, List.prod_nil,
      mul_one]
    calc i * c.toNat + j < i * c.toNat + c.toNat := by omega
      _ = (i + 1) * c.toNat := by ring
      _ ≤ r.toNat * c.toNat := Nat.mul_le_mul_right _ h1
  unfold Tensor.contents
  rw [ht, List.getElem?_map, List.getElem?_range hlt]
  simp only [Option.map_some', Int.ofNat_eq_coe]
  rw [unravel_matrix r c i j hi hj]

/-- The contents of a vector hold its element `i` at position `i`. -/
theorem contents_vector (heap : Heap) (t : Tensor) (n : Int) (ht : t.shape = [n])
    (i : Nat) (hi : (i : Int) < n) :
    (t.contents heap)[i]? = some ((t.elem heap [(i : Int)]).getD 0) := by
  have hlt : i < numElements [n] := by
    simp only [numElements, List.map_cons, List.map_nil, List.prod_cons, List.prod_nil,
      mul_one]
    omega
  unfold Tensor.contents
  rw [ht, List.getElem?_map, List.getElem?_range hlt]
  simp only [Option.map_some', Int.ofNat_eq_coe]
  rw [unravel_vector n i hi]

/-- The element `(i, j)` of the transposed view of a matrix is the element
`(j, i)` of the matrix. -/
theorem elem_T_matrix (heap : Heap) (t : Tensor) (h : t.strides.length = 2) (i j : Int) :
    t.T.elem heap [i, j] = t.elem heap [j, i] := by
  obtain ⟨s0, s1, hs⟩ := length_eq_two_shape _ h
  unfold Tensor.elem Tensor.T
  simp only [hs, List.reverse_cons, List.reverse_nil, List.nil_append, List.singleton_append,
    flatIndex]
  have : i * s1 + (j * s0 + 0) = j * s0 + (i * s1 + 0) := by ring
  rw [this]

/-- The transposed view of a vector is the vector. -/
theorem T_vector (t : Tensor) (hs : t.shape.length = 1) (hst : t.strides.length = 1) :
    t.T = t := by
  obtain ⟨n, hn⟩ := length_eq_one_shape _ hs
  obtain ⟨k, hk⟩ := length_eq_one_shape _ hst
  obtain ⟨sh, st, dt, dev, bl, off⟩ := t
  simp only at hn hk
  subst hn hk
  rfl

/-! ## Claims on validation -/

/-- C1. When the device tags of `A` and `B` differ, `Solve` fails with
`DeviceMismatch`, whatever the dtypes and shapes are: no other error kind is
reported, nothing is allocated and the result variable `X` keeps its value. -/
theorem Solve_device_mismatch (cuda : Bool) (K : Backends) (A B : Tensor) (s : Machine)
    (h : A.GetDevice ≠ B.GetDevice) :
    failure? (Solve cuda K A B s).1 = some ErrorKind.DeviceMismatch ∧
      (Solve cuda K A B s).2 = s := by
  have hv : Validator A B = some ErrorKind.DeviceMismatch := by
    unfold Validator validatorChecks
    exact firstFailing_cons_false _ _ _ (decide_eq_false h)
  exact ⟨(Solve_invalid cuda K A B s _ hv).2, (Solve_invalid cuda K A B s _ hv).1⟩

/-- Witness of C1: a host matrix against an integer tensor of another shape on the
accelerator. -/
theorem Solve_device_mismatch_witness :
    Sample.A.GetDevice ≠ Sample.bad.GetDevice ∧
      failure? (Solve true Sample.backends Sample.A Sample.bad Sample.host).1 =
        some ErrorKind.DeviceMismatch ∧
      (Solve true Sample.backends Sample.A Sample.bad Sample.host).2 = Sample.host :=
  ⟨by decide, Solve_device_mismatch true Sample.backends Sample.A Sample.bad Sample.host
    (by decide)⟩

/-- After validation `Solve` allocates the pivot vector, so its log grows. -/
theorem Solve_valid_trace_ne (cuda : Bool) (K : Backends) (A B : Tensor) (s : Machine)
    (hv : Validator A B = none) : (Solve cuda K A B s).2 ≠ s := by
  intro h
  have hlen : (Solve cuda K A B s).2.trace.length = s.trace.length := by rw [h]
  by_cases hd : A.device.GetType = DeviceType.CUDA
  · cases cuda
    · rw [Solve_unimplemented K A B s hv hd] at hlen
      simp at hlen
    · rw [Solve_accelerator K A B s hv hd, transposeX_trace, callSolveKernel_trace] at hlen
      simp [cudaPrepared] at hlen
  · rw [Solve_host cuda K A B s hv hd, callSolveKernel_trace] at hlen
    simp [hostPrepared] at hlen

/-- C2. Validation in `Solve` is eager and ordered: when some check of the
Validator fails, `Solve` fails with the error kind of the first failing check in
the order device, dtype, rank of `A`, squareness of `A`, rank of `B`, dimension
agreement, and has executed nothing else; and `Solve` fails before doing anything
else exactly when some check fails. -/
theorem Solve_validation_order (cuda : Bool) (K : Backends) (A B : Tensor) (s : Machine) :
    (∀ k, Validator A B = some k →
        failure? (Solve cuda K A B s).1 = some k ∧ (Solve cuda K A B s).2 = s) ∧
      ((failure? (Solve cuda K A B s).1 ≠ none ∧ (Solve cuda K A B s).2 = s) ↔
        Validator A B ≠ none) := by
  refine ⟨fun k hk => ⟨(Solve_invalid cuda K A B s k hk).2, (Solve_invalid cuda K A B s k hk).1⟩,
    ?_, ?_⟩
  · rintro ⟨-, hs⟩ hv
    exact Solve_valid_trace_ne cuda K A B s hv hs
  · intro hv
    cases hk : Validator A B with
    | none => exact absurd hk hv
    | some k =>
      have := Solve_invalid cuda K A B s k hk
      exact ⟨by rw [this.2]; simp, this.1⟩

/-- C3. When a validation check fails, for instance on a matrix `A` of 2 rows and
3 columns, `Solve` fails before any buffer exists: the heap, the log of
allocations and copies, and the result variable are those of before the call. -/
theorem Solve_invalid_allocates_nothing (cuda : Bool) (K : Backends) (A B : Tensor)
    (s : Machine) (h : Validator A B ≠ none) :
    failure? (Solve cuda K A B s).1 = Validator A B ∧
      (Solve cuda K A B s).2.heap = s.heap ∧
      (Solve cuda K A B s).2.trace = s.trace ∧
      (Solve cuda K A B s).2.X = s.X := by
  cases hk : Validator A B with
  | none => exact absurd hk h
  | some k =>
    obtain ⟨h1, h2⟩ := Solve_invalid cuda K A B s k hk
    rw [h1]
    exact ⟨h2, rfl, rfl, rfl⟩

/-- Witness of C3: a matrix of 2 rows and 3 columns fails with `ShapeError` and
nothing is allocated. -/
theorem Solve_invalid_allocates_nothing_witness :
    Validator Sample.A23 Sample.B ≠ none ∧
      Validator Sample.A23 Sample.B = some ErrorKind.ShapeError ∧
      failure? (Solve true Sample.backends Sample.A23 Sample.B Sample.host).1 =
        Validator Sample.A23 Sample.B ∧
      (Solve true Sample.backends Sample.A23 Sample.B Sample.host).2.heap = Sample.host.heap ∧
      (Solve true Sample.backends Sample.A23 Sample.B Sample.host).2.trace = Sample.host.trace ∧
      (Solve true Sample.backends Sample.A23 Sample.B Sample.host).2.X = Sample.host.X :=
  ⟨by decide, by decide,
    Solve_invalid_allocates_nothing true Sample.backends Sample.A23 Sample.B
      Sample.host (by decide)⟩

/-! ## Claims on the operands and on the result -/

/-- Every buffer that existed before the call is left as it was, and every
buffer handed to an adapter was allocated inside the call. -/
theorem Solve_frame (cuda : Bool) (K : Backends) (A B : Tensor) (s : Machine) :
    (∀ i, i < s.heap.length → (Solve cuda K A B s).2.heap[i]? = s.heap[i]?) ∧
      ∃ new, (Solve cuda K A B s).2.trace = s.trace ++ new ∧
        ∀ e ∈ new, ∀ p ∈ e.handed, s.heap.length ≤ p.blob := by
  cases hk : Validator A B with
  | some k =>
    obtain ⟨h1, -⟩ := Solve_invalid cuda K A B s k hk
    rw [h1]
    exact ⟨fun _ _ => rfl, [], by simp, by simp⟩
  | none =>
    by_cases hd : A.device.GetType = DeviceType.CUDA
    · cases cuda
      · rw [Solve_unimplemented K A B s hk hd]
        refine ⟨fun i hi => List.getElem?_append_left hi, _, rfl, ?_⟩
        simp [Event.handed]
      · rw [Solve_accelerator K A B s hk hd, transposeX_trace, transposeX_heap,
          callSolveKernel_trace]
        obtain ⟨out, hout⟩ := callSolveKernel_heap K.SolveCUDA Event.SolveCUDA
          (cudaArgs A B s) (cudaPrepared A B s)
        rw [hout]
        refine ⟨fun i hi => ?_, _, List.append_assoc _ _ _, ?_⟩
        · rw [writeBack_getElem?_of_lt _ _ _ s.heap.length i hi (by simp [cudaArgs])
            (by simp [cudaArgs]) (by simp [cudaArgs]) (by simp [cudaArgs])]
          simp only [cudaPrepared, List.append_assoc]
          exact List.getElem?_append_left hi
        · simp [Event.handed, SolveArgs.pointers, cudaArgs]
    · rw [Solve_host cuda K A B s hk hd, callSolveKernel_trace]
      obtain ⟨out, hout⟩ := callSolveKernel_heap K.SolveCPU Event.SolveCPU
        (hostArgs A B s) (hostPrepared A B s)
      rw [hout]
      refine ⟨fun i hi => ?_, _, List.append_assoc _ _ _, ?_⟩
      · rw [writeBack_getElem?_of_lt _ _ _ s.heap.length i hi (by simp [hostArgs])
          (by simp [hostArgs]) (by simp [hostArgs]) (by simp [hostArgs])]
        simp only [hostPrepared, List.append_assoc]
        exact List.getElem?_append_left hi
      · simp [Event.handed, SolveArgs.pointers, hostArgs]

/-- C4. `Solve` never mutates the operands of its caller: on every path, whether
the call succeeds or fails, the buffers of `A` and of `B` and every element of
`A` and of `B` are after the call what they were before it, and each buffer handed
to an adapter was allocated inside the call. -/
theorem Solve_preserves_operands (cuda : Bool) (K : Backends) (A B : Tensor) (s : Machine)
    (hA : A.blob < s.heap.length) (hB : B.blob < s.heap.length) :
    (Solve cuda K A B s).2.heap[A.blob]? = s.heap[A.blob]? ∧
      (Solve cuda K A B s).2.heap[B.blob]? = s.heap[B.blob]? ∧
      (∀ idx, A.elem (Solve cuda K A B s).2.heap idx = A.elem s.heap idx) ∧
      (∀ idx, B.elem (Solve cuda K A B s).2.heap idx = B.elem s.heap idx) ∧
      ∃ new, (Solve cuda K A B s).2.trace = s.trace ++ new ∧
        ∀ e ∈ new, ∀ p ∈ e.handed,
          s.heap.length ≤ p.blob ∧ p.blob ≠ A.blob ∧ p.blob ≠ B.blob := by
  obtain ⟨hframe, new, hnew, hfresh⟩ := Solve_frame cuda K A B s
  refine ⟨hframe _ hA, hframe _ hB, fun idx => elem_congr _ _ _ _ (hframe _ hA),
    fun idx => elem_congr _ _ _ _ (hframe _ hB), new, hnew, fun e he p hp => ?_⟩
  have := hfresh e he p hp
  omega

/-- Witness of C4: the host sample, where the adapter overwrites the buffers it
is handed. -/
theorem Solve_preserves_operands_witness :
    Sample.A.blob < Sample.host.heap.length ∧ Sample.B.blob < Sample.host.heap.length ∧
      (Solve true Sample.backends Sample.A Sample.B Sample.host).2.heap[Sample.A.blob]? =
        Sample.host.heap[Sample.A.blob]? ∧
      (Solve true Sample.backends Sample.A Sample.B Sample.host).2.heap[Sample.B.blob]? =
        Sample.host.heap[Sample.B.blob]? :=
  ⟨by decide, by decide,
    (Solve_preserves_operands true Sample.backends Sample.A Sample.B Sample.host
      (by decide) (by decide)).1,
    (Solve_preserves_operands true Sample.backends Sample.A Sample.B Sample.host
      (by decide) (by decide)).2.1⟩

/-- C5. When `A` and `B` pass validation and `Solve` returns, the result `X` has
the shape of `B` and the dtype and the device of the operands, on the host path
and on the accelerator path. -/
theorem Solve_result_metadata (cuda : Bool) (K : Backends) (A B : Tensor) (s : Machine)
    (hv : Validator A B = none) (hok : (Solve cuda K A B s).1 = Except.ok ()) :
    (Solve cuda K A B s).2.X.GetShape = B.GetShape ∧
      (Solve cuda K A B s).2.X.GetDtype = A.GetDtype ∧
      (Solve cuda K A B s).2.X.GetDtype = B.GetDtype ∧
      (Solve cuda K A B s).2.X.GetDevice = A.GetDevice ∧
      (Solve cuda K A B s).2.X.GetDevice = B.GetDevice := by
  obtain ⟨h1, h2, -⟩ := (Validator_eq_none_iff A B).1 hv
  by_cases hd : A.device.GetType = DeviceType.CUDA
  · cases cuda
    · rw [Solve_unimplemented K A B s hv hd] at hok
      cases hok
    · rw [Solve_accelerator K A B s hv hd] at hok ⊢
      rw [transposeX_ok _ hok, callSolveKernel_X]
      simp [cudaPrepared, Tensor.T, Tensor.GetShape, Tensor.GetDtype, Tensor.GetDevice, h1, h2]
  · rw [Solve_host cuda K A B s hv hd, callSolveKernel_X]
    simp [hostPrepared, Tensor.GetShape, Tensor.GetDtype, Tensor.GetDevice, h1, h2]

/-- Witness of C5: the accelerator sample, a right-hand side of 2 rows and 3
columns. -/
theorem Solve_result_metadata_witness :
    Validator Sample.Agpu Sample.Bgpu = none ∧
      (Solve true Sample.backends Sample.Agpu Sample.Bgpu Sample.device).1 = Except.ok () ∧
      (Solve true Sample.backends Sample.Agpu Sample.Bgpu Sample.device).2.X.GetShape =
        [2, 3] :=
  ⟨by decide, rfl,
    (Solve_result_metadata true Sample.backends Sample.Agpu Sample.Bgpu Sample.device
      (by decide) rfl).1⟩

/-! ## Claims on the accelerator path and on backend selection -/

/-- C8. On the accelerator path, with the accelerator module built in, `Solve`
hands `SolveCUDA` a fresh copy of the transposed view of `A` and a fresh copy of
the transposed view of `B`, element for element, together with an output buffer of
the shape of the transposed copy of `B`; when the adapter returns, `X` is the
transposed view of that output buffer: it has the shape of `B`, its element
`(i, j)` is the element `(j, i)` of the output buffer, and for a vector `B` it is
the output buffer itself. -/
theorem Solve_accelerator_layout (K : Backends) (A B : Tensor) (s : Machine)
    (hv : Validator A B = none) (hd : A.GetDevice.GetType = DeviceType.CUDA)
    (hA : A.WellFormed s.heap) (hB : B.WellFormed s.heap) :
    (Solve true K A B s).2.trace =
        s.trace ++
          [Event.Empty [toInt32 (A.GetShape.getD 0 0)] Dtype.Int32 A.device s.heap.length,
           Event.Copy A.T A.device (s.heap.length + 1),
           Event.Copy B.T A.device (s.heap.length + 2),
           Event.Empty B.T.GetShape B.dtype A.device (s.heap.length + 3),
           Event.SolveCUDA
             ⟨⟨s.heap.length + 1, 0⟩, ⟨s.heap.length + 2, 0⟩, ⟨s.heap.length, 0⟩,
               some ⟨s.heap.length + 3, 0⟩, toInt32 (A.GetShape.getD 0 0),
               toInt32 (if B.GetShape.length = 2 then B.GetShape.getD 1 0 else 1),
               A.dtype, A.device⟩
             (A.T.contents s.heap) (B.T.contents s.heap)] ∧
      (∀ n, A.shape = [n, n] → ∀ i j : Nat, (i : Int) < n → (j : Int) < n →
        (A.T.contents s.heap)[i * n.toNat + j]? =
          some ((A.elem s.heap [(j : Int), (i : Int)]).getD 0)) ∧
      (∀ n m, B.shape = [n, m] → ∀ i j : Nat, (i : Int) < m → (j : Int) < n →
        (B.T.contents s.heap)[i * n.toNat + j]? =
          some ((B.elem s.heap [(j : Int), (i : Int)]).getD 0)) ∧
      (∀ n, B.shape = [n] → ∀ i : Nat, (i : Int) < n →
        (B.T.contents s.heap)[i]? = some ((B.elem s.heap [(i : Int)]).getD 0)) ∧
      ((Solve true K A B s).1 = Except.ok () →
        (Solve true K A B s).2.X =
            Tensor.T ⟨B.T.GetShape, defaultStrides B.T.GetShape, B.dtype, A.device,
              s.heap.length + 3, 0⟩ ∧
          (Solve true K A B s).2.X.GetShape = B.GetShape ∧
          (B.shape.length = 2 → ∀ heap i j,
            (Solve true K A B s).2.X.elem heap [i, j] =
              Tensor.elem heap ⟨B.T.GetShape, defaultStrides B.T.GetShape, B.dtype, A.device,
                s.heap.length + 3, 0⟩ [j, i]) ∧
          (B.shape.length = 1 →
            (Solve true K A B s).2.X =
              ⟨B.T.GetShape, defaultStrides B.T.GetShape, B.dtype, A.device,
                s.heap.length + 3, 0⟩)) := by
  have hd' : A.device.GetType = DeviceType.CUDA := hd
  obtain ⟨hAb, hAs⟩ := hA
  obtain ⟨hBb, hBs⟩ := hB
  obtain ⟨-, -, -, hA2, -, -, -⟩ := (Validator_eq_none_iff A B).1 hv
  refine ⟨?_, ?_, ?_, ?_, ?_⟩
  · rw [Solve_accelerator K A B s hv hd', transposeX_trace, callSolveKernel_trace]
    have e1 : load (cudaPrepared A B s).heap (cudaArgs A B s).A_data = A.T.contents s.heap := by
      simp only [cudaPrepared, cudaArgs, List.append_assoc, List.singleton_append]
      rw [load_fresh s.heap _ 1 _ rfl]
      exact contents_append s.heap _ A.T hAb
    have e2 : load (cudaPrepared A B s).heap (cudaArgs A B s).B_data = B.T.contents s.heap := by
      simp only [cudaPrepared, cudaArgs, List.append_assoc, List.singleton_append]
      rw [load_fresh s.heap _ 2 _ rfl]
      exact contents_append s.heap _ B.T hBb
    rw [e1, e2]
    simp [cudaPrepared, cudaArgs, Tensor.T, Tensor.GetShape, solveN, solveM]
  · intro n hn i j hi hj
    have hT : A.T.shape = [n, n] := by simp [Tensor.T, hn]
    rw [contents_matrix s.heap A.T n n hT i j hi hj,
      elem_T_matrix s.heap A (by rw [hAs, hA2])]
  · intro n m hnm i j hi hj
    have hT : B.T.shape = [m, n] := by simp [Tensor.T, hnm]
    rw [contents_matrix s.heap B.T m n hT i j hi hj,
      elem_T_matrix s.heap B (by rw [hBs, hnm]; rfl)]
  · intro n hn i hi
    have hT : B.T = B := T_vector B (by rw [hn]; rfl) (by rw [hBs, hn]; rfl)
    rw [hT, contents_vector s.heap B n hn i hi]
  · intro hok
    have hX : (Solve true K A B s).2.X =
        Tensor.T ⟨B.T.GetShape, defaultStrides B.T.GetShape, B.dtype, A.device,
          s.heap.length + 3, 0⟩ := by
      rw [Solve_accelerator K A B s hv hd'] at hok ⊢
      rw [transposeX_ok _ hok, callSolveKernel_X]
      rfl
    refine ⟨hX, ?_, ?_, ?_⟩
    · rw [hX]
      simp [Tensor.T, Tensor.GetShape]
    · intro hB2 heap i j
      rw [hX]
      obtain ⟨b0, b1, hb⟩ := length_eq_two_shape _ hB2
      exact elem_T_matrix heap _ (by simp [Tensor.T, Tensor.GetShape, hb, defaultStrides]) i j
    · intro hB1
      rw [hX]
      obtain ⟨b0, hb⟩ := length_eq_one_shape _ hB1
      exact T_vector _ (by simp [Tensor.T, Tensor.GetShape, hb])
        (by simp [Tensor.T, Tensor.GetShape, hb, defaultStrides])

/-- Witness of C8: the accelerator sample; the log of the call and the element
`(1, 2)` of the result, which is the element `(2, 1)` of the output buffer. -/
theorem Solve_accelerator_layout_witness :
    Validator Sample.Agpu Sample.Bgpu = none ∧
      Sample.Agpu.GetDevice.GetType = DeviceType.CUDA ∧
      Sample.Agpu.WellFormed Sample.device.heap ∧
      Sample.Bgpu.WellFormed Sample.device.heap ∧
      (Solve true Sample.backends Sample.Agpu Sample.Bgpu Sample.device).2.trace =
        [Event.Empty [2] Dtype.Int32 Sample.gpu 2,
         Event.Copy Sample.Agpu.T Sample.gpu 3,
         Event.Copy Sample.Bgpu.T Sample.gpu 4,
         Event.Empty [3, 2] Dtype.Float32 Sample.gpu 5,
         Event.SolveCUDA ⟨⟨3, 0⟩, ⟨4, 0⟩, ⟨2, 0⟩, some ⟨5, 0⟩, 2, 3, Dtype.Float32, Sample.gpu⟩
           [1, 3, 2, 4] [10, 40, 20, 50, 30, 60]] ∧
      (Solve true Sample.backends Sample.Agpu Sample.Bgpu Sample.device).2.X.elem
          (Solve true Sample.backends Sample.Agpu Sample.Bgpu Sample.device).2.heap [1, 2] =
        Tensor.elem (Solve true Sample.backends Sample.Agpu Sample.Bgpu Sample.device).2.heap
          ⟨[3, 2], [2, 1], Dtype.Float32, Sample.gpu, 5, 0⟩ [2, 1] :=
  ⟨by decide, by decide, by decide, by decide,
    (Solve_accelerator_layout Sample.backends Sample.Agpu Sample.Bgpu Sample.device
      (by decide) (by decide) (by decide) (by decide)).1,
    ((Solve_accelerator_layout Sample.backends Sample.Agpu Sample.Bgpu Sample.device
      (by decide) (by decide) (by decide) (by decide)).2.2.2.2 rfl).2.2.1 rfl _ 1 2⟩

theorem toInt32_of_lt (x : Int) (h0 : 0 ≤ x) (h1 : x < 2 ^ 31) : toInt32 x = x := by
  unfold toInt32
  omega

/-- C9, as the code behaves: backend selection depends on the device tag and on
whether the accelerator module is built in. After validation a host device tag,
that is every tag other than the accelerator tag, calls the CPU adapter once and
never the accelerator adapter; an accelerator device tag with the module built in
calls the accelerator adapter once and never the CPU adapter; an accelerator
device tag without the module calls no adapter and fails with
`UnsupportedDevice`. -/
theorem Solve_backend_selection (cuda : Bool) (K : Backends) (A B : Tensor) (s : Machine)
    (hv : Validator A B = none) :
    (A.GetDevice.GetType ≠ DeviceType.CUDA →
        cpuCalls (Solve cuda K A B s).2.trace = cpuCalls s.trace + 1 ∧
          cudaCalls (Solve cuda K A B s).2.trace = cudaCalls s.trace) ∧
      (A.GetDevice.GetType = DeviceType.CUDA → cuda = true →
        cudaCalls (Solve cuda K A B s).2.trace = cudaCalls s.trace + 1 ∧
          cpuCalls (Solve cuda K A B s).2.trace = cpuCalls s.trace) ∧
      (A.GetDevice.GetType = DeviceType.CUDA → cuda = false →
        cudaCalls (Solve cuda K A B s).2.trace = cudaCalls s.trace ∧
          cpuCalls (Solve cuda K A B s).2.trace = cpuCalls s.trace ∧
          failure? (Solve cuda K A B s).1 = some ErrorKind.UnsupportedDevice) := by
  refine ⟨fun hd => ?_, fun hd hc => ?_, fun hd hc => ?_⟩
  · rw [Solve_host cuda K A B s hv hd, callSolveKernel_trace]
    simp [cpuCalls, cudaCalls, hostPrepared, Event.isSolveCPU, Event.isSolveCUDA,
      List.countP_cons, List.countP_append]
  · subst hc
    rw [Solve_accelerator K A B s hv hd, transposeX_trace, callSolveKernel_trace]
    simp [cpuCalls, cudaCalls, cudaPrepared, Event.isSolveCPU, Event.isSolveCUDA,
      List.countP_cons, List.countP_append]
  · subst hc
    rw [Solve_unimplemented K A B s hv hd]
    simp [cpuCalls, cudaCalls, Event.isSolveCPU, Event.isSolveCUDA, List.countP_cons,
      List.countP_append, failure?]

/-- Witness of C9 as the code behaves: the host sample. -/
theorem Solve_backend_selection_witness :
    Validator Sample.A Sample.B = none ∧
      Sample.A.GetDevice.GetType ≠ DeviceType.CUDA ∧
      cpuCalls (Solve true Sample.backends Sample.A Sample.B Sample.host).2.trace = 1 ∧
      cudaCalls (Solve true Sample.backends Sample.A Sample.B Sample.host).2.trace = 0 :=
  ⟨by decide, by decide,
    ((Solve_backend_selection true Sample.backends Sample.A Sample.B Sample.host
      (by decide)).1 (by decide)).1,
    ((Solve_backend_selection true Sample.backends Sample.A Sample.B Sample.host
      (by decide)).1 (by decide)).2⟩

/-- Counterexample to C9: without the accelerator module, operands on the
accelerator pass validation and no adapter is called; the call fails with
`UnsupportedDevice`. -/
theorem Solve_accelerator_not_built :
    Validator Sample.Agpu Sample.Bgpu = none ∧
      Sample.Agpu.GetDevice.GetType = DeviceType.CUDA ∧
      cudaCalls (Solve false Sample.backends Sample.Agpu Sample.Bgpu Sample.device).2.trace = 0 ∧
      cpuCalls (Solve false Sample.backends Sample.Agpu Sample.Bgpu Sample.device).2.trace = 0 ∧
      failure? (Solve false Sample.backends Sample.Agpu Sample.Bgpu Sample.device).1 =
        some ErrorKind.UnsupportedDevice := by
  decide

/-- C10, as the code behaves: when `A` of `n` rows and `B` pass validation, both
`n` and the second extent of `B` are below `2 ^ 31`, and the path reaches an
adapter (a host device, or the accelerator module built in), `Solve` first
allocates a pivot vector of shape `n` and dtype `Int32` on the device of the
operands and then calls one adapter with that pivot vector, with dimension `n`
and with `m` the second extent of `B` for a matrix `B` and `1` for a vector. -/
theorem Solve_adapter_arguments (cuda : Bool) (K : Backends) (A B : Tensor) (s : Machine)
    (hv : Validator A B = none)
    (hpath : A.GetDevice.GetType ≠ DeviceType.CUDA ∨ cuda = true)
    (hn : 0 ≤ A.GetShape.getD 0 0 ∧ A.GetShape.getD 0 0 < 2 ^ 31)
    (hm : 0 ≤ B.GetShape.getD 1 0 ∧ B.GetShape.getD 1 0 < 2 ^ 31) :
    ∃ pre args A_in B_in,
      ((Solve cuda K A B s).2.trace =
          s.trace ++ Event.Empty [A.GetShape.getD 0 0] Dtype.Int32 A.GetDevice s.heap.length ::
            pre ++ [Event.SolveCPU args A_in B_in] ∨
        (Solve cuda K A B s).2.trace =
          s.trace ++ Event.Empty [A.GetShape.getD 0 0] Dtype.Int32 A.GetDevice s.heap.length ::
            pre ++ [Event.SolveCUDA args A_in B_in]) ∧
      (∀ e ∈ pre, e.handed = []) ∧
      args.n = A.GetShape.getD 0 0 ∧
      args.m = (if B.GetShape.length = 2 then B.GetShape.getD 1 0 else 1) ∧
      args.ipiv_data = ⟨s.heap.length, 0⟩ ∧
      args.device = B.GetDevice := by
  have hN : solveN A = A.GetShape.getD 0 0 := toInt32_of_lt _ hn.1 hn.2
  have hM : solveM B = (if B.GetShape.length = 2 then B.GetShape.getD 1 0 else 1) := by
    unfold solveM Tensor.GetShape
    split
    · exact toInt32_of_lt _ hm.1 hm.2
    · rfl
  obtain ⟨hdev, -⟩ := (Validator_eq_none_iff A B).1 hv
  by_cases hd : A.device.GetType = DeviceType.CUDA
  · have hc : cuda = true := by
      rcases hpath with h | h
      · exact absurd hd h
      · exact h
    subst hc
    refine ⟨[Event.Copy A.T A.device (s.heap.length + 1),
        Event.Copy B.T A.device (s.heap.length + 2),
        Event.Empty B.shape.reverse B.dtype A.device (s.heap.length + 3)],
      cudaArgs A B s, load (cudaPrepared A B s).heap (cudaArgs A B s).A_data,
      load (cudaPrepared A B s).heap (cudaArgs A B s).B_data,
      Or.inr ?_, ?_, hN, hM, rfl, hdev⟩
    · rw [Solve_accelerator K A B s hv hd, transposeX_trace, callSolveKernel_trace]
      simp only [cudaPrepared, ← hN, Tensor.GetDevice, List.append_assoc, List.cons_append,
        List.nil_append]
    · simp [Event.handed]
  · refine ⟨[Event.Copy A A.device (s.heap.length + 1),
        Event.Copy B A.device (s.heap.length + 2)],
      hostArgs A B s, load (hostPrepared A B s).heap (hostArgs A B s).A_data,
      load (hostPrepared A B s).heap (hostArgs A B s).B_data,
      Or.inl ?_, ?_, hN, hM, rfl, hdev⟩
    · rw [Solve_host cuda K A B s hv hd, callSolveKernel_trace]
      simp only [hostPrepared, ← hN, Tensor.GetDevice, List.append_assoc, List.cons_append,
        List.nil_append]
    · simp [Event.handed]

/-- Witness of C10 as the code behaves: the host sample with the right-hand side
of 2 rows and 3 columns. -/
theorem Solve_adapter_arguments_witness :
    Validator Sample.A Sample.B23 = none ∧
      (Sample.A.GetDevice.GetType ≠ DeviceType.CUDA ∨ true = true) ∧
      (0 ≤ Sample.A.GetShape.getD 0 0 ∧ Sample.A.GetShape.getD 0 0 < 2 ^ 31) ∧
      (0 ≤ Sample.B23.GetShape.getD 1 0 ∧ Sample.B23.GetShape.getD 1 0 < 2 ^ 31) ∧
      ∃ pre args A_in B_in,
        ((Solve true Sample.backends Sample.A Sample.B23 Sample.host).2.trace =
            Sample.host.trace ++ Event.Empty [Sample.A.GetShape.getD 0 0] Dtype.Int32
              Sample.A.GetDevice Sample.host.heap.length :: pre ++
                [Event.SolveCPU args A_in B_in] ∨
          (Solve true Sample.backends Sample.A Sample.B23 Sample.host).2.trace =
            Sample.host.trace ++ Event.Empty [Sample.A.GetShape.getD 0 0] Dtype.Int32
              Sample.A.GetDevice Sample.host.heap.length :: pre ++
                [Event.SolveCUDA args A_in B_in]) ∧
        (∀ e ∈ pre, e.handed = []) ∧
        args.n = Sample.A.GetShape.getD 0 0 ∧
        args.m = (if Sample.B23.GetShape.length = 2 then Sample.B23.GetShape.getD 1 0 else 1) ∧
        args.ipiv_data = ⟨Sample.host.heap.length, 0⟩ ∧
        args.device = Sample.B23.GetDevice :=
  ⟨by decide, Or.inl (by decide), by decide, by decide,
    Solve_adapter_arguments true Sample.backends Sample.A Sample.B23 Sample.host
      (by decide) (Or.inl (by decide)) (by decide) (by decide)⟩

/-- Counterexample to C10. First, a host matrix of 1 row and a right-hand side of
1 row and 2147483648 columns pass validation and the one adapter call of `Solve`
is a call of `SolveCPU` with `m = -2147483648`, not with the second extent of `B`.
Second, without the accelerator module, operands on the accelerator pass
validation and no adapter is called at all. -/
theorem Solve_adapter_arguments_narrowed :
    (Validator Sample.Aone Sample.Bwide = none ∧
      Sample.Bwide.GetShape = [1, 2147483648] ∧
      cpuCalls (Solve true Sample.backends Sample.Aone Sample.Bwide Sample.wide).2.trace = 1 ∧
      (Solve true Sample.backends Sample.Aone Sample.Bwide Sample.wide).2.trace.filterMap
          Event.solveArgs? =
        [⟨⟨3, 0⟩, ⟨4, 0⟩, ⟨2, 0⟩, none, 1, -2147483648, Dtype.Float32, Sample.cpu⟩]) ∧
      (Validator Sample.Agpu Sample.Bgpu = none ∧
        (Solve false Sample.backends Sample.Agpu Sample.Bgpu Sample.device).2.trace.filterMap
          Event.solveArgs? = []) := by
  refine ⟨⟨by decide, rfl, ?_, ?_⟩, by decide, by decide⟩
  · rw [Solve_host true Sample.backends Sample.Aone Sample.Bwide Sample.wide (by decide)
      (by decide), callSolveKernel_trace]
    rfl
  · rw [Solve_host true Sample.backends Sample.Aone Sample.Bwide Sample.wide (by decide)
      (by decide), callSolveKernel_trace]
    rfl

/-! ## Claims on `InverseCPU` -/

/-- C6. `InverseCPU` runs one kernel pair of the dtype, each kernel once and in
this order. For `Float32` the call returns normally and is exactly this: the
routine `sgetrf` of `L` is applied to the contents of the matrix buffer and of the
pivot buffer with dimension `n`, its factors and pivots are written to these two
buffers and its status is logged; then the routine `sgetri` of `L` is applied to
the factors and the pivots now in the same two buffers, with the same `n`, its
result is written to the matrix buffer and its status is logged. For `Float64` the
same holds with `dgetrf` and `dgetri`. For every other dtype no kernel is called,
nothing is written and the call fails with `UnsupportedDtype`. -/
theorem InverseCPU_kernel_pair (L : Lapacke) (A_data ipiv_data : Ptr)
    (output_data : Option Ptr) (n : Int) (device : Device) (s : Machine) :
    (let f := L.sgetrf MatrixLayout.LAPACK_ROW_MAJOR n n (load s.heap A_data) n
        (load s.heap ipiv_data)
      let factored := store (store s.heap A_data f.a) ipiv_data f.ipiv
      let g := L.sgetri MatrixLayout.LAPACK_ROW_MAJOR n (load factored A_data) n
        (load factored ipiv_data)
      InverseCPU L A_data ipiv_data output_data n Dtype.Float32 device s =
        (Except.ok (),
          { heap := store factored A_data g.a
            trace := s.trace ++
              [Event.LAPACKE_sgetrf MatrixLayout.LAPACK_ROW_MAJOR n n A_data n ipiv_data f.info,
               Event.LAPACKE_sgetri MatrixLayout.LAPACK_ROW_MAJOR n A_data n ipiv_data g.info]
            X := s.X })) ∧
      (let f := L.dgetrf MatrixLayout.LAPACK_ROW_MAJOR n n (load s.heap A_data) n
          (load s.heap ipiv_data)
        let factored := store (store s.heap A_data f.a) ipiv_data f.ipiv
        let g := L.dgetri MatrixLayout.LAPACK_ROW_MAJOR n (load factored A_data) n
          (load factored ipiv_data)
        InverseCPU L A_data ipiv_data output_data n Dtype.Float64 device s =
          (Except.ok (),
            { heap := store factored A_data g.a
              trace := s.trace ++
                [Event.LAPACKE_dgetrf MatrixLayout.LAPACK_ROW_MAJOR n n A_data n ipiv_data
                   f.info,
                 Event.LAPACKE_dgetri MatrixLayout.LAPACK_ROW_MAJOR n A_data n ipiv_data
                   g.info]
              X := s.X })) ∧
      ∀ dtype, dtype ≠ Dtype.Float32 → dtype ≠ Dtype.Float64 →
        failure? (InverseCPU L A_data ipiv_data output_data n dtype device s).1 =
            some ErrorKind.UnsupportedDtype ∧
          (InverseCPU L A_data ipiv_data output_data n dtype device s).2 = s := by
  refine ⟨?_, ?_, ?_⟩
  · simp only [InverseCPU, bind, Exec.bind, pure, Exec.pure, LAPACKE_sgetrf, LAPACKE_sgetri,
      callGetrf, callGetri, List.append_assoc, List.singleton_append]
  · simp only [InverseCPU, bind, Exec.bind, pure, Exec.pure, LAPACKE_dgetrf, LAPACKE_dgetri,
      callGetrf, callGetri, List.append_assoc, List.singleton_append]
  · intro dtype h32 h64
    cases dtype with
    | Float32 => exact absurd rfl h32
    | Float64 => exact absurd rfl h64
    | Int32 => exact ⟨rfl, rfl⟩
    | Other tag => exact ⟨rfl, rfl⟩

/-- Witness of C6 on a matrix of zeros, with routines that mark what they
write: the factorization adds 10 to the matrix and stores the pivots 1
and 2, the inversion adds the first pivot to the factors; the statuses 0 and 5 of
the two routines are those logged. -/
theorem InverseCPU_kernel_pair_witness :
    InverseCPU Sample.marking ⟨0, 0⟩ ⟨1, 0⟩ none 2 Dtype.Float32 Sample.cpu Sample.zeros =
      (Except.ok (),
        { heap := [⟨Sample.cpu, [11, 11, 11, 11]⟩, ⟨Sample.cpu, [1, 2]⟩]
          trace :=
            [Event.LAPACKE_sgetrf MatrixLayout.LAPACK_ROW_MAJOR 2 2 ⟨0, 0⟩ 2 ⟨1, 0⟩ 0,
             Event.LAPACKE_sgetri MatrixLayout.LAPACK_ROW_MAJOR 2 ⟨0, 0⟩ 2 ⟨1, 0⟩ 5]
          X := Sample.X }) := by
  have h := (InverseCPU_kernel_pair Sample.marking ⟨0, 0⟩ ⟨1, 0⟩ none 2 Sample.cpu
    Sample.zeros).1
  rw [h]
  rfl

end core
end open3d
